import Mathlib

/-!
Verification of the escrow-based job marketplace contract
(DecentralizedJobMarket, src/contracts/hello-world/src/lib.rs).

Shallow embedding: addresses and 32-byte blobs are modelled as Nat,
i128 amounts as Int, u64 timestamps as Nat.  Contract storage is an
explicit record; each public operation is a function from storage (plus
the call arguments and the ledger timestamp where the source reads it)
to Except Failure (storage, list of token transfers).  Host panics that
are not raised through panic_with_error (Option::unwrap on a missing
talent, Vec::get(i).unwrap on an out-of-range index) are modelled by
the distinguished failure .trap.  require_auth is modelled by passing
the authenticated caller address as an argument.
-/

/-- Error enum of the contract (lib.rs lines 26-47). -/
inductive Error where
  | Unauthorized
  | InvalidState
  | InvalidInput
  | TalentExists
  | MilestonePending
  | NotSubmitted
  | InvalidIndex
  | AmountRequired
  | Reentrancy
  | JobNotFound
  | InsufficientFunds
  | TokenNotSet
  | DeadlinePassed
  | ArbitrationPending
  | NotArbitrator
  | JobCompleted
  | ClientOnly
  | TalentOnly
deriving DecidableEq, Repr

/-- A call outcome that is not a normal return: either a domain error
raised via panic_with_error, or a host trap (unwrap of None etc.). -/
inductive Failure where
  | err (e : Error)
  | trap
deriving DecidableEq, Repr

/-- JobState enum (lib.rs lines 52-61). -/
inductive JobState where
  | Created
  | Funded
  | Active
  | Completed
  | Disputed
  | Cancelled
deriving DecidableEq, Repr

/-- MilestoneState enum (lib.rs lines 63-72). -/
inductive MilestoneState where
  | Pending
  | Submitted
  | Approved
  | Rejected
  | Paid
  | Disputed
deriving DecidableEq, Repr

/-- Milestone struct (lib.rs lines 77-85).  BytesN<32> fields are Nat;
the all-zero byte array is 0. -/
structure Milestone where
  description : Nat
  amount : Int
  state : MilestoneState
  submission_data : Nat
  deadline : Nat
  submitted_at : Option Nat
deriving DecidableEq, Repr

/-- Job struct (lib.rs lines 87-101). -/
structure Job where
  client : Nat
  talent : Option Nat
  title : Nat
  total_value : Int
  amount_paid : Int
  state : JobState
  milestones : List Milestone
  escrow_balance : Int
  created_at : Nat
  dispute_raised_by : Option Nat
  selected_arbitrator : Option Nat
  cancellation_fee : Int
deriving DecidableEq, Repr

/-- Arbitrator struct (lib.rs lines 103-110). -/
structure Arbitrator where
  address : Nat
  fee_percentage : Int
  reputation : Nat
  cases_handled : Nat
  specialization : Nat
deriving DecidableEq, Repr

/-- Default arbitration fee percentage, const ARB_FEE (lib.rs line 21). -/
def ARB_FEE : Int := 5

/-- A token transfer performed during a call: pull moves tokens from an
external address into the contract, pay moves tokens from the contract
to an external address. -/
inductive Transfer where
  | pull (source : Nat) (amount : Int)
  | pay (dest : Nat) (amount : Int)
deriving DecidableEq, Repr

/-- The persistent contract storage: the TOKEN_ID singleton, the
RE_ENTRY flag, the JOB_CNT counter, the per-job records and the ARB_REG
arbitrator registry (association lists keyed by job id / address). -/
structure Storage where
  token : Option Nat
  reentry : Bool
  jobCnt : Nat
  jobs : List (Nat × Job)
  arbitrators : List (Nat × Arbitrator)
deriving DecidableEq, Repr

/-- Lookup in an association list (storage get / Map get). -/
def lookupA {α : Type} : List (Nat × α) → Nat → Option α
  | [], _ => none
  | (k, v) :: rest, key => if k = key then some v else lookupA rest key

/-- Update in an association list (storage set / Map set): replace the
first binding of the key, or append a new binding. -/
def setA {α : Type} : List (Nat × α) → Nat → α → List (Nat × α)
  | [], key, v => [(key, v)]
  | (k, w) :: rest, key, v =>
      if k = key then (k, v) :: rest else (k, w) :: setA rest key v

/-- update_job helper (lib.rs lines 660-662). -/
def update_job (s : Storage) (job_id : Nat) (job : Job) : Storage :=
  { s with jobs := setA s.jobs job_id job }

/-- save_job helper (lib.rs lines 650-658): increment JOB_CNT and store
the job under the new count, returning the new id. -/
def save_job (s : Storage) (job : Job) : Storage × Nat :=
  let count := s.jobCnt + 1
  ({ s with jobCnt := count, jobs := setA s.jobs count job }, count)

/-- is_arbitrator helper (lib.rs lines 683-685). -/
def is_arbitrator (s : Storage) (address : Nat) : Bool :=
  (lookupA s.arbitrators address).isSome

/-- check_reentrancy helper (lib.rs lines 643-648): fail with Reentrancy
if the RE_ENTRY flag is set, otherwise set it.  Note the source has no
corresponding clearing step anywhere. -/
def check_reentrancy (s : Storage) : Except Failure Storage :=
  if s.reentry then .error (.err .Reentrancy)
  else .ok { s with reentry := true }

/-- Whether every milestone of the job is Paid (the completion check of
approve_milestone and resolve_dispute). -/
def allPaid (j : Job) : Bool :=
  j.milestones.all (fun m => decide (m.state = .Paid))

/-- Sum of the amounts of the milestones currently in state Paid. -/
def paidSum (ms : List Milestone) : Int :=
  ms.foldr (fun m acc => if m.state = .Paid then m.amount + acc else acc) 0

/-- initialize (lib.rs lines 123-128): set the payment token once. -/
def init_contract (s : Storage) (token_id : Nat) : Except Failure Storage :=
  if s.token.isSome then .error (.err .InvalidState)
  else .ok { s with token := some token_id }

/-- The milestone-building loop of create_job (lib.rs lines 163-180):
each amount must be positive, each milestone starts Pending with zeroed
submission data and no submission time. -/
def build_milestones : List Nat → List Int → List Nat →
    Except Failure (List Milestone)
  | [], [], [] => .ok []
  | d :: ds, a :: amts, dl :: dls =>
      if a ≤ 0 then .error (.err .AmountRequired)
      else
        match build_milestones ds amts dls with
        | .error e => .error e
        | .ok rest =>
            .ok ({ description := d, amount := a, state := .Pending,
                   submission_data := 0, deadline := dl,
                   submitted_at := none } :: rest)
  | _, _, _ => .error (.err .InvalidInput)

/-- create_job (lib.rs lines 141-204). -/
def create_job (s : Storage) (now : Nat) (client : Nat) (title : Nat)
    (descriptions : List Nat) (amounts : List Int) (deadlines : List Nat) :
    Except Failure (Storage × Nat) :=
  if descriptions.length ≠ amounts.length ∨
     amounts.length ≠ deadlines.length then .error (.err .InvalidInput)
  else
    let total_value : Int := amounts.foldr (· + ·) 0
    if total_value ≤ 0 then .error (.err .AmountRequired)
    else
      match build_milestones descriptions amounts deadlines with
      | .error e => .error e
      | .ok milestones =>
          let job : Job :=
            { client := client, talent := none, title := title,
              total_value := total_value, amount_paid := 0,
              state := .Created, milestones := milestones,
              escrow_balance := 0, created_at := now,
              dispute_raised_by := none, selected_arbitrator := none,
              cancellation_fee := total_value / 10 }
          .ok (save_job s job)

/-- fund_job (lib.rs lines 210-238). -/
def fund_job (s : Storage) (client : Nat) (job_id : Nat) :
    Except Failure (Storage × List Transfer) :=
  match lookupA s.jobs job_id with
  | none => .error (.err .JobNotFound)
  | some job =>
    if job.client ≠ client then .error (.err .Unauthorized)
    else if job.state ≠ .Created then .error (.err .InvalidState)
    else
      match s.token with
      | none => .error (.err .TokenNotSet)
      | some _ =>
          let j' := { job with escrow_balance := job.total_value,
                               state := .Funded }
          .ok (update_job s job_id j', [.pull client job.total_value])

/-- select_talent (lib.rs lines 245-268). -/
def select_talent (s : Storage) (client : Nat) (job_id : Nat)
    (talent : Nat) : Except Failure (Storage × List Transfer) :=
  match lookupA s.jobs job_id with
  | none => .error (.err .JobNotFound)
  | some job =>
    if job.client ≠ client then .error (.err .Unauthorized)
    else if job.state ≠ .Funded then .error (.err .InvalidState)
    else if job.talent.isSome then .error (.err .TalentExists)
    else
      let j' := { job with talent := some talent, state := .Active }
      .ok (update_job s job_id j', [])

/-- submit_milestone (lib.rs lines 279-319). -/
def submit_milestone (s : Storage) (now : Nat) (talent : Nat)
    (job_id : Nat) (milestone_idx : Nat) (data : Nat) :
    Except Failure (Storage × List Transfer) :=
  match lookupA s.jobs job_id with
  | none => .error (.err .JobNotFound)
  | some job =>
    if job.state ≠ .Active then .error (.err .InvalidState)
    else if job.talent ≠ some talent then .error (.err .Unauthorized)
    else
      match job.milestones[milestone_idx]? with
      | none => .error (.err .InvalidIndex)
      | some m =>
        if m.state ≠ .Pending then .error (.err .MilestonePending)
        else if m.deadline < now then .error (.err .DeadlinePassed)
        else
          let m' := { m with state := .Submitted, submission_data := data,
                             submitted_at := some now }
          let j' := { job with
                        milestones := job.milestones.set milestone_idx m' }
          .ok (update_job s job_id j', [])

/-- approve_milestone (lib.rs lines 326-374). -/
def approve_milestone (s : Storage) (client : Nat) (job_id : Nat)
    (milestone_idx : Nat) : Except Failure (Storage × List Transfer) :=
  match lookupA s.jobs job_id with
  | none => .error (.err .JobNotFound)
  | some job =>
    if job.client ≠ client then .error (.err .Unauthorized)
    else if job.state ≠ .Active then .error (.err .InvalidState)
    else
      match job.milestones[milestone_idx]? with
      | none => .error (.err .InvalidIndex)
      | some m =>
        if m.state ≠ .Submitted then .error (.err .NotSubmitted)
        else
          match s.token with
          | none => .error (.err .TokenNotSet)
          | some _ =>
            match job.talent with
            | none => .error .trap
            | some t =>
              let m' := { m with state := .Paid }
              let j1 := { job with
                            milestones := job.milestones.set milestone_idx m',
                            amount_paid := job.amount_paid + m.amount,
                            escrow_balance := job.escrow_balance - m.amount }
              let j2 := if allPaid j1 then { j1 with state := .Completed }
                        else j1
              .ok (update_job s job_id j2, [.pay t m.amount])

/-- raise_dispute (lib.rs lines 385-434). -/
def raise_dispute (s : Storage) (caller : Nat) (job_id : Nat)
    (milestone_idx : Option Nat) (arbitrator : Nat) :
    Except Failure (Storage × List Transfer) :=
  match lookupA s.jobs job_id with
  | none => .error (.err .JobNotFound)
  | some job =>
    if job.state = .Disputed then .error (.err .ArbitrationPending)
    else if job.state ≠ .Active then .error (.err .InvalidState)
    else if ¬ (job.client = caller ∨ job.talent = some caller) then
      .error (.err .Unauthorized)
    else if ¬ is_arbitrator s arbitrator then .error (.err .NotArbitrator)
    else
      let idxCheck : Except Failure Unit :=
        match milestone_idx with
        | none => .ok ()
        | some idx =>
          match job.milestones[idx]? with
          | none => .error (.err .InvalidIndex)
          | some m =>
            if m.state ≠ .Submitted then .error (.err .NotSubmitted)
            else .ok ()
      match idxCheck with
      | .error e => .error e
      | .ok _ =>
          let j' := { job with state := .Disputed,
                               dispute_raised_by := some caller,
                               selected_arbitrator := some arbitrator }
          .ok (update_job s job_id j', [])

/-- approve_milestone_internal (lib.rs lines 597-612): pay the indexed
milestone unconditionally (no check of its current state). -/
def approve_milestone_internal (tok : Option Nat) (job : Job) (idx : Nat) :
    Except Failure (Job × List Transfer) :=
  match job.milestones[idx]? with
  | none => .error (.err .InvalidIndex)
  | some m =>
    match tok with
    | none => .error (.err .TokenNotSet)
    | some _ =>
      match job.talent with
      | none => .error .trap
      | some t =>
          .ok ({ job with
                   milestones := job.milestones.set idx { m with state := .Paid },
                   amount_paid := job.amount_paid + m.amount,
                   escrow_balance := job.escrow_balance - m.amount },
               [.pay t m.amount])

/-- The index loop of approve_all_milestones (lib.rs lines 614-621). -/
def approve_all_aux (tok : Option Nat) :
    List Nat → Job → Except Failure (Job × List Transfer)
  | [], job => .ok (job, [])
  | i :: rest, job =>
    match job.milestones[i]? with
    | none => .error .trap
    | some m =>
      if m.state = .Submitted then
        match approve_milestone_internal tok job i with
        | .error e => .error e
        | .ok (j', pays) =>
          match approve_all_aux tok rest j' with
          | .error e => .error e
          | .ok (j'', pays') => .ok (j'', pays ++ pays')
      else approve_all_aux tok rest job

/-- approve_all_milestones (lib.rs lines 614-621). -/
def approve_all_milestones (tok : Option Nat) (job : Job) :
    Except Failure (Job × List Transfer) :=
  approve_all_aux tok (List.range job.milestones.length) job

/-- reject_milestone (lib.rs lines 623-630): set the indexed milestone
to Rejected and zero its submission data. -/
def reject_milestone (job : Job) (idx : Nat) : Except Failure Job :=
  match job.milestones[idx]? with
  | none => .error (.err .InvalidIndex)
  | some m =>
      .ok { job with
              milestones := job.milestones.set idx
                { m with state := .Rejected, submission_data := 0 } }

/-- The index loop of reject_all_milestones (lib.rs lines 632-641). -/
def reject_all_aux : List Nat → Job → Except Failure Job
  | [], job => .ok job
  | i :: rest, job =>
    match job.milestones[i]? with
    | none => .error .trap
    | some m =>
      if m.state = .Submitted then
        reject_all_aux rest
          { job with
              milestones := job.milestones.set i
                { m with state := .Rejected, submission_data := 0 } }
      else reject_all_aux rest job

/-- reject_all_milestones (lib.rs lines 632-641). -/
def reject_all_milestones (job : Job) : Except Failure Job :=
  reject_all_aux (List.range job.milestones.length) job

/-- The decision dispatch of resolve_dispute (lib.rs lines 472-484):
approve the named milestone, approve all Submitted milestones, reject
the named milestone, or reject all Submitted milestones. -/
def apply_decision (tok : Nat) (job : Job) (milestone_idx : Option Nat)
    (decision : Bool) : Except Failure (Job × List Transfer) :=
  if decision then
    match milestone_idx with
    | some idx => approve_milestone_internal (some tok) job idx
    | none => approve_all_milestones (some tok) job
  else
    match milestone_idx with
    | some idx =>
      match reject_milestone job idx with
      | .error e => .error e
      | .ok j' => .ok (j', [])
    | none =>
      match reject_all_milestones job with
      | .error e => .error e
      | .ok j' => .ok (j', [])

/-- resolve_dispute (lib.rs lines 442-501). -/
def resolve_dispute (s : Storage) (arbitrator : Nat) (job_id : Nat)
    (milestone_idx : Option Nat) (decision : Bool) :
    Except Failure (Storage × List Transfer) :=
  match lookupA s.jobs job_id with
  | none => .error (.err .JobNotFound)
  | some job =>
    if job.state ≠ .Disputed then .error (.err .InvalidState)
    else if job.selected_arbitrator ≠ some arbitrator then
      .error (.err .NotArbitrator)
    else
      match s.token with
      | none => .error (.err .TokenNotSet)
      | some tok =>
        let fee_amount := job.total_value * ARB_FEE / 100
        match apply_decision tok job milestone_idx decision with
        | .error e => .error e
        | .ok (j1, pays) =>
          let j2 := { j1 with
                        escrow_balance := j1.escrow_balance - fee_amount,
                        state := if allPaid j1 then .Completed else .Active,
                        dispute_raised_by := none,
                        selected_arbitrator := none }
          .ok (update_job s job_id j2, .pay arbitrator fee_amount :: pays)

/-- cancel_job (lib.rs lines 510-554).  The source declares
refund_amount without mut and then assigns to it in the no-talent
branch; the evident intent (and the comment at line 533) is that the
fee folds back into the client refund, modelled here directly. -/
def cancel_job (s : Storage) (client : Nat) (job_id : Nat) :
    Except Failure (Storage × List Transfer) :=
  match lookupA s.jobs job_id with
  | none => .error (.err .JobNotFound)
  | some job =>
    if job.client ≠ client then .error (.err .Unauthorized)
    else if job.state = .Completed ∨ job.state = .Cancelled then
      .error (.err .JobCompleted)
    else
      match s.token with
      | none => .error (.err .TokenNotSet)
      | some _ =>
        let refund0 := job.escrow_balance - job.cancellation_fee
        let feePays : List Transfer :=
          match job.talent with
          | some t => [.pay t job.cancellation_fee]
          | none => []
        let refund := match job.talent with
          | some _ => refund0
          | none => refund0 + job.cancellation_fee
        let refundPays : List Transfer :=
          if refund > 0 then [.pay client refund] else []
        let j' := { job with state := .Cancelled, escrow_balance := 0 }
        .ok (update_job s job_id j', feePays ++ refundPays)

/-- register_arbitrator (lib.rs lines 563-592). -/
def register_arbitrator (s : Storage) (arbitrator : Nat)
    (specialization : Nat) : Except Failure (Storage × List Transfer) :=
  if (lookupA s.arbitrators arbitrator).isSome then
    .error (.err .InvalidState)
  else
    let entry : Arbitrator :=
      { address := arbitrator, fee_percentage := ARB_FEE,
        reputation := 80, cases_handled := 0,
        specialization := specialization }
    .ok ({ s with arbitrators := setA s.arbitrators arbitrator entry }, [])

/-- One top-level contract invocation with its arguments (now is the
ledger timestamp at the call). -/
inductive Op where
  | opInit (token_id : Nat)
  | opCreate (now : Nat) (client : Nat) (title : Nat)
      (descriptions : List Nat) (amounts : List Int) (deadlines : List Nat)
  | opFund (client : Nat) (job_id : Nat)
  | opSelect (client : Nat) (job_id : Nat) (talent : Nat)
  | opSubmit (now : Nat) (talent : Nat) (job_id : Nat) (idx : Nat) (data : Nat)
  | opApprove (client : Nat) (job_id : Nat) (idx : Nat)
  | opRaise (caller : Nat) (job_id : Nat) (idx : Option Nat) (arbitrator : Nat)
  | opResolve (arbitrator : Nat) (job_id : Nat) (idx : Option Nat)
      (decision : Bool)
  | opCancel (client : Nat) (job_id : Nat)
  | opRegister (arbitrator : Nat) (specialization : Nat)
deriving DecidableEq, Repr

/-- Dispatch one public call exactly as the source does: every entry
point except initialize first runs check_reentrancy, then its body. -/
def applyOp (s : Storage) (op : Op) :
    Except Failure (Storage × List Transfer) :=
  match op with
  | .opInit tk =>
      match init_contract s tk with
      | .error e => .error e
      | .ok s' => .ok (s', [])
  | .opCreate now c t ds amts dls =>
      match check_reentrancy s with
      | .error e => .error e
      | .ok s1 =>
        match create_job s1 now c t ds amts dls with
        | .error e => .error e
        | .ok (s2, _) => .ok (s2, [])
  | .opFund c j =>
      match check_reentrancy s with
      | .error e => .error e
      | .ok s1 => fund_job s1 c j
  | .opSelect c j t =>
      match check_reentrancy s with
      | .error e => .error e
      | .ok s1 => select_talent s1 c j t
  | .opSubmit now t j i d =>
      match check_reentrancy s with
      | .error e => .error e
      | .ok s1 => submit_milestone s1 now t j i d
  | .opApprove c j i =>
      match check_reentrancy s with
      | .error e => .error e
      | .ok s1 => approve_milestone s1 c j i
  | .opRaise c j i a =>
      match check_reentrancy s with
      | .error e => .error e
      | .ok s1 => raise_dispute s1 c j i a
  | .opResolve a j i d =>
      match check_reentrancy s with
      | .error e => .error e
      | .ok s1 => resolve_dispute s1 a j i d
  | .opCancel c j =>
      match check_reentrancy s with
      | .error e => .error e
      | .ok s1 => cancel_job s1 c j
  | .opRegister a sp =>
      match check_reentrancy s with
      | .error e => .error e
      | .ok s1 => register_arbitrator s1 a sp

/-- Host transaction semantics: a failed call rolls every storage write
back, a successful call commits the new storage. -/
def runOp (s : Storage) (op : Op) : Storage :=
  match applyOp s op with
  | .ok (s', _) => s'
  | .error _ => s

/-- Run a sequence of top-level calls. -/
def runSeq (s : Storage) (ops : List Op) : Storage :=
  ops.foldl runOp s

/-- The storage of a freshly deployed contract instance. -/
def initStorage : Storage :=
  { token := none, reentry := false, jobCnt := 0, jobs := [],
    arbitrators := [] }

/-! ## Concrete fixtures used by the closed theorems and witnesses -/

/-- A job under dispute: one Submitted milestone of amount 100, client 1,
talent 2, arbitrator 3 selected, escrow fully funded. -/
def jobD : Job :=
  { client := 1, talent := some 2, title := 7, total_value := 100,
    amount_paid := 0, state := .Disputed,
    milestones := [{ description := 5, amount := 100, state := .Submitted,
                     submission_data := 55, deadline := 50,
                     submitted_at := some 10 }],
    escrow_balance := 100, created_at := 0, dispute_raised_by := some 1,
    selected_arbitrator := some 3, cancellation_fee := 10 }

/-- Storage holding jobD under id 1, with the token set and arbitrator 3
registered. -/
def sD : Storage :=
  { token := some 99, reentry := false, jobCnt := 1, jobs := [(1, jobD)],
    arbitrators := [(3, { address := 3, fee_percentage := 5,
                          reputation := 80, cases_handled := 0,
                          specialization := 8 })] }

/-- The trace that exercises the dispute engine on an already paid
milestone: set the token, create a job with milestones [100, 200], fund
it, hire talent 2, submit and approve milestone 0 (now Paid), raise a
dispute naming no milestone, and have arbitrator 3 resolve it with
decision true and explicit index 0.  Each step is the body of the
corresponding public operation; the final job record is returned. -/
def c1job : Except Failure Job :=
  match init_contract initStorage 99 with
  | .error e => .error e
  | .ok s1 =>
  match create_job s1 0 1 7 [5, 6] [100, 200] [50, 50] with
  | .error e => .error e
  | .ok (s2, jid) =>
  match fund_job s2 1 jid with
  | .error e => .error e
  | .ok (s3, _) =>
  match select_talent s3 1 jid 2 with
  | .error e => .error e
  | .ok (s4, _) =>
  match submit_milestone s4 10 2 jid 0 77 with
  | .error e => .error e
  | .ok (s5, _) =>
  match approve_milestone s5 1 jid 0 with
  | .error e => .error e
  | .ok (s6, _) =>
  match register_arbitrator s6 3 8 with
  | .error e => .error e
  | .ok (s7, _) =>
  match raise_dispute s7 1 jid none 3 with
  | .error e => .error e
  | .ok (s8, _) =>
  match resolve_dispute s8 3 jid (some 0) true with
  | .error e => .error e
  | .ok (s9, _) =>
  match lookupA s9.jobs jid with
  | none => .error (.err .JobNotFound)
  | some j => .ok j

/-- The job record produced by resolving the dispute on jobD with
decision false and no index: the Submitted milestone ends Rejected. -/
def jobDrej : Job :=
  { client := 1, talent := some 2, title := 7, total_value := 100,
    amount_paid := 0, state := .Active,
    milestones := [{ description := 5, amount := 100, state := .Rejected,
                     submission_data := 0, deadline := 50,
                     submitted_at := some 10 }],
    escrow_balance := 95, created_at := 0, dispute_raised_by := none,
    selected_arbitrator := none, cancellation_fee := 10 }

/-- A completed job (both milestones Paid) stored under id 1. -/
def jobComp : Job :=
  { client := 1, talent := some 2, title := 7, total_value := 100,
    amount_paid := 100, state := .Completed,
    milestones := [{ description := 5, amount := 100, state := .Paid,
                     submission_data := 55, deadline := 50,
                     submitted_at := some 10 }],
    escrow_balance := 0, created_at := 0, dispute_raised_by := none,
    selected_arbitrator := none, cancellation_fee := 10 }

/-- Storage holding the completed job jobComp. -/
def sComp : Storage :=
  { token := some 99, reentry := false, jobCnt := 1, jobs := [(1, jobComp)],
    arbitrators := [] }

/-- The job record produced by cancelling jobD from state Disputed: the
dispute fields survive into the Cancelled record. -/
def jobDcanc : Job :=
  { client := 1, talent := some 2, title := 7, total_value := 100,
    amount_paid := 0, state := .Cancelled,
    milestones := [{ description := 5, amount := 100, state := .Submitted,
                     submission_data := 55, deadline := 50,
                     submitted_at := some 10 }],
    escrow_balance := 0, created_at := 0, dispute_raised_by := some 1,
    selected_arbitrator := some 3, cancellation_fee := 10 }

/-- The rejection action applied to one milestone by
reject_all_milestones: a Submitted milestone becomes Rejected with its
submission data zeroed; any other milestone is unchanged. -/
def rejSub (m : Milestone) : Milestone :=
  if m.state = .Submitted then
    { m with state := .Rejected, submission_data := 0 }
  else m

/-- Total amount moved out of the contract by a list of transfers. -/
def paySum : List Transfer → Int
  | [] => 0
  | .pay _ v :: rest => v + paySum rest
  | .pull _ _ :: rest => paySum rest

/-- Every registered arbitrator still has the initial counters:
cases_handled 0 and reputation 80. -/
def goodRegistry (l : List (Nat × Arbitrator)) : Prop :=
  ∀ a e, lookupA l a = some e → e.cases_handled = 0 ∧ e.reputation = 80

/-- A Submitted milestone worth 100. -/
def mSub100 : Milestone :=
  { description := 5, amount := 100, state := .Submitted,
    submission_data := 55, deadline := 50, submitted_at := some 10 }

/-- A Submitted milestone worth 200. -/
def mSub200 : Milestone :=
  { description := 6, amount := 200, state := .Submitted,
    submission_data := 56, deadline := 50, submitted_at := some 11 }

/-- An Active fully funded job with two Submitted milestones. -/
def jobA : Job :=
  { client := 1, talent := some 2, title := 7, total_value := 300,
    amount_paid := 0, state := .Active,
    milestones := [mSub100, mSub200],
    escrow_balance := 300, created_at := 0, dispute_raised_by := none,
    selected_arbitrator := none, cancellation_fee := 30 }

/-- Storage holding jobA under id 1 with arbitrator 3 registered. -/
def sA : Storage :=
  { token := some 99, reentry := false, jobCnt := 1, jobs := [(1, jobA)],
    arbitrators := [(3, { address := 3, fee_percentage := 5,
                          reputation := 80, cases_handled := 0,
                          specialization := 8 })] }

/-- jobA after a dispute is raised on it by the client naming
arbitrator 3. -/
def jobAdisp : Job :=
  { jobA with state := .Disputed, dispute_raised_by := some 1,
              selected_arbitrator := some 3 }

/-- sA after raise_dispute by the client with arbitrator 3. -/
def sAdisp : Storage :=
  { sA with jobs := [(1, jobAdisp)] }

/-- sD after resolve_dispute with decision false and no index. -/
def sDrej : Storage :=
  { sD with jobs := [(1, jobDrej)] }

/-- sD after cancel_job by the client. -/
def sDcanc : Storage :=
  { sD with jobs := [(1, jobDcanc)] }

/-- State and amount_paid of job 1 of sA after approving milestone 0. -/
def c5once : Except Failure (JobState × Int) :=
  match approve_milestone sA 1 1 0 with
  | .error e => .error e
  | .ok (s1, _) =>
    match lookupA s1.jobs 1 with
    | none => .error (.err .JobNotFound)
    | some j => .ok (j.state, j.amount_paid)

/-- State and amount_paid of job 1 of sA after approving milestone 0
and then milestone 1. -/
def c5chain : Except Failure (JobState × Int) :=
  match approve_milestone sA 1 1 0 with
  | .error e => .error e
  | .ok (s1, _) =>
    match approve_milestone s1 1 1 1 with
    | .error e => .error e
    | .ok (s2, _) =>
      match lookupA s2.jobs 1 with
      | none => .error (.err .JobNotFound)
      | some j => .ok (j.state, j.amount_paid)

/-- An Active job with a hired talent, escrow 1000 and cancellation
fee 100. -/
def jobT : Job :=
  { client := 1, talent := some 2, title := 7, total_value := 1000,
    amount_paid := 0, state := .Active,
    milestones := [{ description := 5, amount := 400, state := .Pending,
                     submission_data := 0, deadline := 50,
                     submitted_at := none },
                   { description := 6, amount := 600, state := .Pending,
                     submission_data := 0, deadline := 60,
                     submitted_at := none }],
    escrow_balance := 1000, created_at := 0, dispute_raised_by := none,
    selected_arbitrator := none, cancellation_fee := 100 }

/-- Storage holding jobT under id 1. -/
def sT : Storage :=
  { token := some 99, reentry := false, jobCnt := 1, jobs := [(1, jobT)],
    arbitrators := [] }

/-- A Funded job with no talent hired, escrow 1000 and cancellation
fee 100. -/
def jobN : Job :=
  { jobT with talent := none, state := .Funded }

/-- Storage holding jobN under id 1. -/
def sN : Storage :=
  { token := some 99, reentry := false, jobCnt := 1, jobs := [(1, jobN)],
    arbitrators := [] }

/-- A Pending milestone worth 100 with deadline 50. -/
def mPend : Milestone :=
  { description := 5, amount := 100, state := .Pending,
    submission_data := 0, deadline := 50, submitted_at := none }

/-- An Active job whose only milestone is still Pending. -/
def jobP : Job :=
  { client := 1, talent := some 2, title := 7, total_value := 100,
    amount_paid := 0, state := .Active, milestones := [mPend],
    escrow_balance := 100, created_at := 0, dispute_raised_by := none,
    selected_arbitrator := none, cancellation_fee := 10 }

/-- Storage holding jobP under id 1. -/
def sP : Storage :=
  { token := some 99, reentry := false, jobCnt := 1, jobs := [(1, jobP)],
    arbitrators := [] }

/-- jobT after cancellation. -/
def jobTcanc : Job :=
  { jobT with state := .Cancelled, escrow_balance := 0 }

/-- sT after cancel_job: job Cancelled with zero escrow. -/
def sTcanc : Storage :=
  { sT with jobs := [(1, jobTcanc)] }

/-- jobN after cancellation. -/
def jobNcanc : Job :=
  { jobN with state := .Cancelled, escrow_balance := 0 }

/-- sN after cancel_job: job Cancelled with zero escrow. -/
def sNcanc : Storage :=
  { sN with jobs := [(1, jobNcanc)] }

/-! ## Supporting lemmas -/

/-- Looking up the key just set in an association list returns the new
value. -/
theorem lookupA_setA_self {α : Type} (l : List (Nat × α)) (k : Nat)
    (v : α) : lookupA (setA l k v) k = some v := by
  induction l with
  | nil => simp [setA, lookupA]
  | cons hd tl ih =>
      obtain ⟨k0, v0⟩ := hd
      by_cases h : k0 = k
      · simp [setA, lookupA, h]
      · simp [setA, lookupA, h, ih]

/-- Looking up any key after a set. -/
theorem lookupA_setA {α : Type} (l : List (Nat × α)) (k key : Nat)
    (v : α) : lookupA (setA l k v) key =
      if k = key then some v else lookupA l key := by
  induction l with
  | nil => simp [setA, lookupA]
  | cons hd tl ih =>
      obtain ⟨k0, v0⟩ := hd
      by_cases h : k0 = k
      · subst h
        by_cases h2 : k0 = key <;> simp [setA, lookupA, h2]
      · by_cases h2 : k0 = key
        · subst h2
          simp [setA, lookupA, h, Ne.symm h]
        · simp [setA, lookupA, h, h2, ih]

/-- allPaid spelled out as a proposition about the milestone list. -/
theorem allPaid_iff (j : Job) :
    allPaid j = true ↔ ∀ m ∈ j.milestones, m.state = .Paid := by
  simp [allPaid, List.all_eq_true]

/-- Claim C9: submit_milestone succeeds exactly under the specified
conditions.  Given the stored job: (1) when the job is Active, the
caller is its talent, the indexed milestone is Pending and now is at or
before its deadline, the call succeeds and stores the Submitted
milestone with the data and submitted_at = now; (2) a Pending milestone
strictly past its deadline fails DeadlinePassed; (3) a non-Pending
milestone fails MilestonePending; (4) success implies all the
conditions of (1). -/
theorem c9_submit_milestone (s : Storage) (now talent job_id idx data : Nat)
    (job : Job) (hj : lookupA s.jobs job_id = some job) :
    (∀ m, job.state = .Active → job.talent = some talent →
      job.milestones[idx]? = some m → m.state = .Pending →
      now ≤ m.deadline →
      submit_milestone s now talent job_id idx data =
        .ok (update_job s job_id
          { job with milestones := (job.milestones.set idx
              { m with state := .Submitted, submission_data := data,
                       submitted_at := some now }) }, [])) ∧
    (∀ m, job.state = .Active → job.talent = some talent →
      job.milestones[idx]? = some m → m.state = .Pending →
      m.deadline < now →
      submit_milestone s now talent job_id idx data =
        .error (.err .DeadlinePassed)) ∧
    (∀ m, job.state = .Active → job.talent = some talent →
      job.milestones[idx]? = some m → m.state ≠ .Pending →
      submit_milestone s now talent job_id idx data =
        .error (.err .MilestonePending)) ∧
    (∀ r, submit_milestone s now talent job_id idx data = .ok r →
      job.state = .Active ∧ job.talent = some talent ∧
      ∃ m, job.milestones[idx]? = some m ∧ m.state = .Pending ∧
        now ≤ m.deadline) := by
  refine ⟨?_, ?_, ?_, ?_⟩
  · intro m hs ht hm hp hd
    simp [submit_milestone, hj, hs, ht, hm, hp, Nat.not_lt.mpr hd]
  · intro m hs ht hm hp hd
    simp [submit_milestone, hj, hs, ht, hm, hp, hd]
  · intro m hs ht hm hp
    simp [submit_milestone, hj, hs, ht, hm, hp]
  · intro r h
    unfold submit_milestone at h
    rw [hj] at h
    by_cases hs : job.state = .Active
    · by_cases ht : job.talent = some talent
      · simp only [hs, ht] at h
        cases hm : job.milestones[idx]? with
        | none => simp [hm] at h
        | some m =>
            simp only [hm] at h
            by_cases hp : m.state = .Pending
            · by_cases hd : m.deadline < now
              · simp [hp, hd] at h
              · exact ⟨hs, ht, m, rfl, hp, Nat.not_lt.mp hd⟩
            · simp [hp] at h
      · simp [hs, ht] at h
    · simp [hs] at h

/-- Claim C5: approving a Submitted milestone of an Active job pays
exactly its amount to the talent, adds it to amount_paid, subtracts it
from escrow, marks the milestone Paid, and completes the job exactly
when every milestone is now Paid, otherwise leaving it Active. -/
theorem c5_approve_milestone (s : Storage) (client job_id idx : Nat)
    (job : Job) (m : Milestone) (t tok : Nat)
    (hj : lookupA s.jobs job_id = some job)
    (hc : job.client = client) (hs : job.state = .Active)
    (ht : job.talent = some t) (htok : s.token = some tok)
    (hm : job.milestones[idx]? = some m) (hsub : m.state = .Submitted) :
    ∃ s', approve_milestone s client job_id idx =
        .ok (s', [.pay t m.amount]) ∧
      ∃ j', lookupA s'.jobs job_id = some j' ∧
        j'.milestones = (job.milestones.set idx { m with state := .Paid }) ∧
        j'.amount_paid = job.amount_paid + m.amount ∧
        j'.escrow_balance = job.escrow_balance - m.amount ∧
        (j'.state = .Completed ↔
          (∀ mm ∈ job.milestones.set idx { m with state := .Paid },
            mm.state = .Paid)) ∧
        ((¬ ∀ mm ∈ job.milestones.set idx { m with state := .Paid },
            mm.state = .Paid) → j'.state = .Active) := by
  unfold approve_milestone
  rw [hj]
  simp only [hc, hs, ht, htok, hm, hsub]
  simp only [ne_eq, not_true_eq_false, if_false, reduceCtorEq,
    if_neg, not_false_eq_true]
  refine ⟨_, rfl, ?_⟩
  refine ⟨_, lookupA_setA_self _ _ _, ?_⟩
  split
  next hall =>
    refine ⟨rfl, rfl, rfl, ?_, ?_⟩
    · exact iff_of_true rfl ((allPaid_iff _).mp hall)
    · intro hcontra
      exact absurd ((allPaid_iff _).mp hall) hcontra
  next hall =>
    refine ⟨rfl, rfl, rfl, ?_, fun _ => rfl⟩
    constructor
    · intro hstate
      simp at hstate
    · intro hx
      exact absurd ((allPaid_iff _).mpr hx) hall

/-- Claim C6: cancelling a non-terminal job pays the cancellation fee
to the talent when one is hired and the positive remainder of escrow to
the client; with no talent hired the whole escrow (when positive) goes
back to the client.  Escrow is zeroed and the job ends Cancelled. -/
theorem c6_cancel_job (s : Storage) (client job_id : Nat) (job : Job)
    (tok : Nat)
    (hj : lookupA s.jobs job_id = some job) (hc : job.client = client)
    (hterm : ¬ (job.state = .Completed ∨ job.state = .Cancelled))
    (htok : s.token = some tok) :
    ∃ s', cancel_job s client job_id =
        .ok (s',
          (match job.talent with
           | some t => .pay t job.cancellation_fee ::
               (if job.escrow_balance - job.cancellation_fee > 0 then
                  [.pay client (job.escrow_balance - job.cancellation_fee)]
                else [])
           | none =>
               if job.escrow_balance > 0 then
                 [.pay client job.escrow_balance]
               else [])) ∧
      ∃ j', lookupA s'.jobs job_id = some j' ∧
        j'.escrow_balance = 0 ∧ j'.state = .Cancelled ∧
        j'.amount_paid = job.amount_paid ∧
        j'.milestones = job.milestones := by
  unfold cancel_job
  rw [hj]
  simp only [hc, htok, if_neg hterm]
  simp only [ne_eq, not_true_eq_false, if_false]
  cases htal : job.talent with
  | none =>
      simp only [htal, Int.sub_add_cancel, List.nil_append]
      exact ⟨_, rfl, _, lookupA_setA_self _ _ _, rfl, rfl, rfl, rfl⟩
  | some t =>
      simp only [htal, List.singleton_append]
      exact ⟨_, rfl, _, lookupA_setA_self _ _ _, rfl, rfl, rfl, rfl⟩

/-- Claim C7 (amended): on a terminal job (Completed or Cancelled)
every further state-changing call fails, but only cancel_job fails with
JobCompleted; fund_job, select_talent, submit_milestone,
approve_milestone, raise_dispute and resolve_dispute fail with
InvalidState, because each checks its own required state and a terminal
job never matches it. -/
theorem c7_terminal_rejects_amended (s : Storage) (job_id : Nat)
    (job : Job) (hj : lookupA s.jobs job_id = some job)
    (hterm : job.state = .Completed ∨ job.state = .Cancelled) :
    fund_job s job.client job_id = .error (.err .InvalidState) ∧
    (∀ t, select_talent s job.client job_id t =
      .error (.err .InvalidState)) ∧
    (∀ now t i d, submit_milestone s now t job_id i d =
      .error (.err .InvalidState)) ∧
    (∀ i, approve_milestone s job.client job_id i =
      .error (.err .InvalidState)) ∧
    (∀ c i a, raise_dispute s c job_id i a =
      .error (.err .InvalidState)) ∧
    (∀ a i d, resolve_dispute s a job_id i d =
      .error (.err .InvalidState)) ∧
    cancel_job s job.client job_id = .error (.err .JobCompleted) := by
  rcases hterm with hs | hs <;>
    exact ⟨by simp [fund_job, hj, hs],
           fun t => by simp [select_talent, hj, hs],
           fun now t i d => by simp [submit_milestone, hj, hs],
           fun i => by simp [approve_milestone, hj, hs],
           fun c i a => by simp [raise_dispute, hj, hs],
           fun a i d => by simp [resolve_dispute, hj, hs],
           by simp [cancel_job, hj, hs]⟩

/-- Claim C8 (amended): dispute_raised_by and selected_arbitrator are
set together by a successful raise_dispute (which puts the job in
Disputed) and cleared together by a successful resolve_dispute (which
leaves Disputed); but cancel_job does not touch either field, so a job
cancelled out of Disputed keeps them set. -/
theorem c8_dispute_fields_amended :
    (∀ s caller job_id idx arb s' ts,
      raise_dispute s caller job_id idx arb = .ok (s', ts) →
      ∃ j', lookupA s'.jobs job_id = some j' ∧ j'.state = .Disputed ∧
        j'.dispute_raised_by = some caller ∧
        j'.selected_arbitrator = some arb) ∧
    (∀ s arb job_id idx d s' ts,
      resolve_dispute s arb job_id idx d = .ok (s', ts) →
      ∃ j', lookupA s'.jobs job_id = some j' ∧
        j'.dispute_raised_by = none ∧ j'.selected_arbitrator = none ∧
        j'.state ≠ .Disputed) ∧
    (∀ s c job_id job s' ts, lookupA s.jobs job_id = some job →
      cancel_job s c job_id = .ok (s', ts) →
      ∃ j', lookupA s'.jobs job_id = some j' ∧ j'.state = .Cancelled ∧
        j'.dispute_raised_by = job.dispute_raised_by ∧
        j'.selected_arbitrator = job.selected_arbitrator) := by
  refine ⟨?_, ?_, ?_⟩
  · intro s caller job_id idx arb s' ts h
    unfold raise_dispute at h
    cases hj : lookupA s.jobs job_id with
    | none => rw [hj] at h; exact Except.noConfusion h
    | some job =>
        rw [hj] at h
        simp only [] at h
        split at h
        · exact Except.noConfusion h
        · split at h
          · exact Except.noConfusion h
          · split at h
            · exact Except.noConfusion h
            · split at h
              · exact Except.noConfusion h
              · split at h
                · exact Except.noConfusion h
                · injection h with h2
                  obtain ⟨rfl, rfl⟩ := Prod.mk.injEq .. |>.mp h2
                  exact ⟨_, lookupA_setA_self _ _ _, rfl, rfl, rfl⟩
  · intro s arb job_id idx d s' ts h
    unfold resolve_dispute at h
    cases hj : lookupA s.jobs job_id with
    | none => rw [hj] at h; exact Except.noConfusion h
    | some job =>
        rw [hj] at h
        simp only [] at h
        split at h
        · exact Except.noConfusion h
        · split at h
          · exact Except.noConfusion h
          · split at h
            · exact Except.noConfusion h
            · split at h
              · exact Except.noConfusion h
              · injection h with h2
                obtain ⟨rfl, rfl⟩ := Prod.mk.injEq .. |>.mp h2
                refine ⟨_, lookupA_setA_self _ _ _, rfl, rfl, ?_⟩
                split <;> simp
  · intro s c job_id job s' ts hj h
    unfold cancel_job at h
    rw [hj] at h
    simp only [] at h
    split at h
    · exact Except.noConfusion h
    · split at h
      · exact Except.noConfusion h
      · split at h
        · exact Except.noConfusion h
        · injection h with h2
          obtain ⟨rfl, rfl⟩ := Prod.mk.injEq .. |>.mp h2
          exact ⟨_, lookupA_setA_self _ _ _, rfl, rfl, rfl⟩

/-- Claim C1: the accounting invariant fails on the code.  On the trace
c1job, resolve_dispute re-pays milestone 0 (approve_milestone_internal
checks no milestone state), so amount_paid ends at 200 while the sum of
the amounts of Paid milestones is 100: the invariant
amount_paid = sum of Paid milestone amounts is violated after a public
operation. -/
theorem c1_invariant_broken_by_double_pay :
    (c1job.map fun j => (j.amount_paid, paidSum j.milestones)) =
      .ok (200, 100) ∧ ((200 : Int), (100 : Int)).1 ≠ (200, (100 : Int)).2 := by
  exact ⟨rfl, by decide⟩

/-- Claim C2: the reentrancy flag is never cleared by the code.  After
one successful public call (create_job) the RE_ENTRY flag is still set
in the committed storage, and the very next call (fund_job on the job
just created) fails with Reentrancy. -/
theorem c2_guard_never_cleared :
    (runOp initStorage (Op.opCreate 0 1 7 [5] [100] [10])).reentry = true ∧
    applyOp (runOp initStorage (Op.opCreate 0 1 7 [5] [100] [10]))
        (Op.opFund 1 1) = .error (.err .Reentrancy) := by
  exact ⟨rfl, rfl⟩

/-- Claim C3 counterexample: resolving the dispute on jobD with
decision false and no milestone index sets the Submitted milestone to
Rejected, not to Pending as the claim states. -/
theorem c3_rejected_not_pending :
    resolve_dispute sD 3 1 none false =
      .ok ({ sD with jobs := [(1, jobDrej)] }, [.pay 3 5]) ∧
    jobDrej.milestones.all (fun m => decide (m.state ≠ .Pending)) = true := by
  exact ⟨rfl, rfl⟩

/-- Claim C7 counterexample: fund_job called by the client on a
Completed job fails with InvalidState, not with JobCompleted as the
claim states. -/
theorem c7_invalid_state_not_job_completed :
    fund_job sComp 1 1 = .error (.err .InvalidState) ∧
    Error.InvalidState ≠ Error.JobCompleted := by
  exact ⟨rfl, by decide⟩

/-- Claim C8 counterexample: cancelling jobD (state Disputed) leaves
dispute_raised_by and selected_arbitrator set while the job state is
Cancelled, so the fields are not cleared on leaving Disputed and are
not None in a state other than Disputed. -/
theorem c8_cancel_keeps_dispute_fields :
    cancel_job sD 1 1 =
      .ok ({ sD with jobs := [(1, jobDcanc)] },
           [.pay 2 10, .pay 1 90]) ∧
    jobDcanc.state = .Cancelled ∧
    jobDcanc.state ≠ .Disputed ∧
    jobDcanc.dispute_raised_by = some 1 ∧
    jobDcanc.selected_arbitrator = some 3 := by
  exact ⟨rfl, rfl, by decide, rfl, rfl⟩

/-- Indexing an append at the length of the prefix yields the head of the suffix. -/
theorem getElem?_append_len {α : Type} (pre : List α) (m : α)
    (rest : List α) : (pre ++ m :: rest)[pre.length]? = some m := by
  induction pre with
  | nil => simp
  | cons a l ih => simpa using ih

/-- Setting an append at the length of the prefix replaces the head of the suffix. -/
theorem set_append_len {α : Type} (pre : List α) (m : α) (rest : List α)
    (v : α) : (pre ++ m :: rest).set pre.length v = pre ++ v :: rest := by
  induction pre with
  | nil => rfl
  | cons a l ih =>
      show a :: (l ++ m :: rest).set l.length v = a :: (l ++ v :: rest)
      rw [ih]

/-- The reject_all_milestones index loop, started after an already processed prefix, maps rejSub over the remaining suffix. -/
theorem reject_all_aux_spec (post : List Milestone) :
    ∀ (job : Job) (pre : List Milestone), job.milestones = pre ++ post →
    reject_all_aux (List.range' pre.length post.length) job =
      .ok { job with milestones := pre ++ post.map rejSub } := by
  induction post with
  | nil =>
      intro job pre h
      rw [List.append_nil] at h
      show Except.ok job = _
      rw [List.map_nil, List.append_nil, ← h]
  | cons m rest ih =>
      intro job pre h
      rw [List.length_cons, List.range'_succ]
      show (match job.milestones[pre.length]? with
        | none => Except.error Failure.trap
        | some mm =>
          if mm.state = MilestoneState.Submitted then
            reject_all_aux (List.range' (pre.length + 1) rest.length)
              { job with milestones := (job.milestones.set pre.length
                  { mm with state := MilestoneState.Rejected,
                            submission_data := 0 }) }
          else reject_all_aux (List.range' (pre.length + 1) rest.length)
            job) = _
      rw [h, getElem?_append_len]
      by_cases hsub : m.state = MilestoneState.Submitted
      · simp only [if_pos hsub]
        rw [set_append_len]
        have hlen : pre.length + 1 = (pre ++
            [{ m with state := MilestoneState.Rejected,
                      submission_data := 0 }]).length := by
          simp
        rw [hlen]
        have step := ih { job with milestones := pre ++
              { m with state := MilestoneState.Rejected,
                       submission_data := 0 } :: rest }
            (pre ++ [{ m with state := MilestoneState.Rejected,
                              submission_data := 0 }]) (by simp)
        rw [step]
        simp [rejSub, hsub]
      · simp only [if_neg hsub]
        have hlen : pre.length + 1 = (pre ++ [m]).length := by simp
        rw [hlen]
        have step := ih job (pre ++ [m]) (by simp [h])
        rw [step]
        simp [rejSub, hsub]

/-- reject_all_milestones maps rejSub over the whole milestone list: every Submitted milestone becomes Rejected with zeroed data, the rest are unchanged. -/
theorem reject_all_spec (job : Job) :
    reject_all_milestones job =
      .ok { job with milestones := job.milestones.map rejSub } := by
  have := reject_all_aux_spec job.milestones job [] rfl
  simpa [reject_all_milestones, List.range_eq_range'] using this

/-- paySum distributes over append. -/
theorem paySum_append (l1 l2 : List Transfer) :
    paySum (l1 ++ l2) = paySum l1 + paySum l2 := by
  induction l1 with
  | nil => simp [paySum]
  | cons hd tl ih =>
      cases hd with
      | pull a v => simp [paySum, ih]
      | pay a v => rw [List.cons_append]; simp only [paySum, ih]; ring

/-- approve_milestone_internal keeps talent and total_value, moves exactly the paid amount from escrow_balance to amount_paid, and pays only the talent. -/
theorem approve_internal_spec (tok : Option Nat) (job : Job) (idx : Nat)
    (j' : Job) (pays : List Transfer)
    (h : approve_milestone_internal tok job idx = .ok (j', pays)) :
    j'.talent = job.talent ∧ j'.total_value = job.total_value ∧
    j'.amount_paid = job.amount_paid + paySum pays ∧
    j'.escrow_balance = job.escrow_balance - paySum pays ∧
    (∀ p ∈ pays, ∃ a v, p = .pay a v ∧ job.talent = some a) := by
  unfold approve_milestone_internal at h
  split at h
  · exact Except.noConfusion h
  · split at h
    · exact Except.noConfusion h
    · split at h
      · exact Except.noConfusion h
      · injection h with h2
        obtain ⟨rfl, rfl⟩ := Prod.mk.injEq .. |>.mp h2
        rename_i x2 m hm x1 tokv x0 t ht
        refine ⟨rfl, rfl, by simp [paySum], by simp [paySum], ?_⟩
        intro p hp
        simp at hp
        subst hp
        exact ⟨t, m.amount, rfl, ht⟩

/-- The approve_all_milestones index loop keeps talent and total_value, moves exactly the sum of the payouts from escrow_balance to amount_paid, and pays only the talent. -/
theorem approve_all_aux_spec (tok : Option Nat) (l : List Nat) :
    ∀ (job j' : Job) (pays : List Transfer),
    approve_all_aux tok l job = .ok (j', pays) →
    j'.talent = job.talent ∧ j'.total_value = job.total_value ∧
    j'.amount_paid = job.amount_paid + paySum pays ∧
    j'.escrow_balance = job.escrow_balance - paySum pays ∧
    (∀ p ∈ pays, ∃ a v, p = .pay a v ∧ job.talent = some a) := by
  induction l with
  | nil =>
      intro job j' pays h
      unfold approve_all_aux at h
      injection h with h2
      obtain ⟨rfl, rfl⟩ := Prod.mk.injEq .. |>.mp h2
      simp [paySum]
  | cons i rest ih =>
      intro job j' pays h
      unfold approve_all_aux at h
      split at h
      · exact Except.noConfusion h
      · split at h
        · split at h
          · exact Except.noConfusion h
          · split at h
            · exact Except.noConfusion h
            · rename_i m hm hsub r1 j1 pays1 h1 r2 j2 pays2 h2x
              injection h with h2
              obtain ⟨rfl, rfl⟩ := Prod.mk.injEq .. |>.mp h2
              obtain ⟨ht1, htv1, hap1, hesc1, hmem1⟩ :=
                approve_internal_spec tok job i j1 pays1 h1
              obtain ⟨ht2, htv2, hap2, hesc2, hmem2⟩ := ih j1 j2 pays2 h2x
              refine ⟨ht2.trans ht1, htv2.trans htv1, ?_, ?_, ?_⟩
              · rw [paySum_append, hap2, hap1]; ring
              · rw [paySum_append, hesc2, hesc1]; ring
              · intro p hp
                rcases List.mem_append.mp hp with hp1 | hp2
                · exact hmem1 p hp1
                · obtain ⟨a, v, hpv, hta⟩ := hmem2 p hp2
                  exact ⟨a, v, hpv, ht1 ▸ hta⟩
        · exact ih job j' pays h

/-- reject_milestone changes no ledger field of the job. -/
theorem reject_milestone_fields (job : Job) (idx : Nat) (j' : Job)
    (h : reject_milestone job idx = .ok j') :
    j'.talent = job.talent ∧ j'.total_value = job.total_value ∧
    j'.amount_paid = job.amount_paid ∧
    j'.escrow_balance = job.escrow_balance := by
  unfold reject_milestone at h
  split at h
  · exact Except.noConfusion h
  · injection h with h2
    subst h2
    exact ⟨rfl, rfl, rfl, rfl⟩

/-- Any successful decision dispatch of resolve_dispute keeps talent and total_value, moves exactly the payout sum from escrow_balance to amount_paid, and pays only the talent. -/
theorem apply_decision_spec (tok : Nat) (job : Job) (idx : Option Nat)
    (decision : Bool) (j1 : Job) (pays : List Transfer)
    (h : apply_decision tok job idx decision = .ok (j1, pays)) :
    j1.talent = job.talent ∧ j1.total_value = job.total_value ∧
    j1.amount_paid = job.amount_paid + paySum pays ∧
    j1.escrow_balance = job.escrow_balance - paySum pays ∧
    (∀ p ∈ pays, ∃ a v, p = .pay a v ∧ job.talent = some a) := by
  unfold apply_decision at h
  cases decision with
  | true =>
      rw [if_pos rfl] at h
      cases idx with
      | some i =>
          simp only [] at h
          exact approve_internal_spec (some tok) job i j1 pays h
      | none =>
          simp only [] at h
          unfold approve_all_milestones at h
          exact approve_all_aux_spec (some tok) _ job j1 pays h
  | false =>
      rw [if_neg (by simp)] at h
      cases idx with
      | some i =>
          simp only [] at h
          cases hr : reject_milestone job i with
          | error e => rw [hr] at h; exact Except.noConfusion h
          | ok jr =>
              rw [hr] at h
              injection h with h2
              obtain ⟨rfl, rfl⟩ := Prod.mk.injEq .. |>.mp h2
              obtain ⟨ht, htv, hap, hesc⟩ :=
                reject_milestone_fields job i jr hr
              exact ⟨ht, htv, by simp [paySum, hap],
                by simp [paySum, hesc], by simp⟩
      | none =>
          simp only [] at h
          rw [reject_all_spec job] at h
          simp only [] at h
          injection h with h2
          obtain ⟨rfl, rfl⟩ := Prod.mk.injEq .. |>.mp h2
          exact ⟨rfl, rfl, by simp [paySum], by simp [paySum], by simp⟩

/-- The decision-false, no-index dispatch rejects every Submitted milestone and produces no payout. -/
theorem apply_decision_reject_none (tok : Nat) (job : Job) :
    apply_decision tok job none false =
      .ok ({ job with milestones := job.milestones.map rejSub }, []) := by
  unfold apply_decision
  rw [if_neg (by simp)]
  simp only []
  rw [reject_all_spec job]

/-- check_reentrancy does not touch the arbitrator registry. -/
theorem check_reentrancy_arb (s s1 : Storage)
    (h : check_reentrancy s = .ok s1) : s1.arbitrators = s.arbitrators := by
  unfold check_reentrancy at h
  split at h
  · exact Except.noConfusion h
  · injection h with h2
    subst h2
    rfl

/-- initialize does not touch the arbitrator registry. -/
theorem init_contract_registry (s : Storage) (tk : Nat) (s' : Storage)
    (h : init_contract s tk = .ok s') : s'.arbitrators = s.arbitrators := by
  unfold init_contract at h
  split at h
  · exact Except.noConfusion h
  · injection h with h2
    subst h2
    rfl

/-- create_job does not touch the arbitrator registry. -/
theorem create_job_registry (s : Storage) (now c t : Nat)
    (ds : List Nat) (amts : List Int) (dls : List Nat)
    (s' : Storage) (jid : Nat)
    (h : create_job s now c t ds amts dls = .ok (s', jid)) :
    s'.arbitrators = s.arbitrators := by
  unfold create_job at h
  simp only [save_job] at h
  repeat' split at h
  all_goals
    first
      | exact Except.noConfusion h
      | (injection h with h2
         obtain ⟨rfl, rfl⟩ := Prod.mk.injEq .. |>.mp h2
         rfl)

/-- fund_job does not touch the arbitrator registry. -/
theorem fund_job_registry (s : Storage) (c j : Nat) (s' : Storage)
    (ts : List Transfer) (h : fund_job s c j = .ok (s', ts)) :
    s'.arbitrators = s.arbitrators := by
  unfold fund_job at h
  repeat' split at h
  all_goals
    first
      | exact Except.noConfusion h
      | (injection h with h2
         obtain ⟨rfl, rfl⟩ := Prod.mk.injEq .. |>.mp h2
         rfl)

/-- select_talent does not touch the arbitrator registry. -/
theorem select_talent_registry (s : Storage) (c j t : Nat) (s' : Storage)
    (ts : List Transfer) (h : select_talent s c j t = .ok (s', ts)) :
    s'.arbitrators = s.arbitrators := by
  unfold select_talent at h
  repeat' split at h
  all_goals
    first
      | exact Except.noConfusion h
      | (injection h with h2
         obtain ⟨rfl, rfl⟩ := Prod.mk.injEq .. |>.mp h2
         rfl)

/-- submit_milestone does not touch the arbitrator registry. -/
theorem submit_milestone_registry (s : Storage) (now t j i d : Nat)
    (s' : Storage) (ts : List Transfer)
    (h : submit_milestone s now t j i d = .ok (s', ts)) :
    s'.arbitrators = s.arbitrators := by
  unfold submit_milestone at h
  repeat' split at h
  all_goals
    first
      | exact Except.noConfusion h
      | (injection h with h2
         obtain ⟨rfl, rfl⟩ := Prod.mk.injEq .. |>.mp h2
         rfl)

/-- approve_milestone does not touch the arbitrator registry. -/
theorem approve_milestone_registry (s : Storage) (c j i : Nat)
    (s' : Storage) (ts : List Transfer)
    (h : approve_milestone s c j i = .ok (s', ts)) :
    s'.arbitrators = s.arbitrators := by
  unfold approve_milestone at h
  repeat' split at h
  all_goals
    first
      | exact Except.noConfusion h
      | (injection h with h2
         obtain ⟨rfl, rfl⟩ := Prod.mk.injEq .. |>.mp h2
         rfl)

/-- raise_dispute does not touch the arbitrator registry. -/
theorem raise_dispute_registry (s : Storage) (c j : Nat)
    (i : Option Nat) (a : Nat) (s' : Storage) (ts : List Transfer)
    (h : raise_dispute s c j i a = .ok (s', ts)) :
    s'.arbitrators = s.arbitrators := by
  unfold raise_dispute at h
  simp only [] at h
  repeat' split at h
  all_goals
    first
      | exact Except.noConfusion h
      | (injection h with h2
         obtain ⟨rfl, rfl⟩ := Prod.mk.injEq .. |>.mp h2
         rfl)

/-- resolve_dispute does not touch the arbitrator registry. -/
theorem resolve_dispute_registry (s : Storage) (a j : Nat)
    (i : Option Nat) (d : Bool) (s' : Storage) (ts : List Transfer)
    (h : resolve_dispute s a j i d = .ok (s', ts)) :
    s'.arbitrators = s.arbitrators := by
  unfold resolve_dispute at h
  simp only [] at h
  repeat' split at h
  all_goals
    first
      | exact Except.noConfusion h
      | (injection h with h2
         obtain ⟨rfl, rfl⟩ := Prod.mk.injEq .. |>.mp h2
         rfl)

/-- cancel_job does not touch the arbitrator registry. -/
theorem cancel_job_registry (s : Storage) (c j : Nat) (s' : Storage)
    (ts : List Transfer) (h : cancel_job s c j = .ok (s', ts)) :
    s'.arbitrators = s.arbitrators := by
  unfold cancel_job at h
  simp only [] at h
  repeat' split at h
  all_goals
    first
      | exact Except.noConfusion h
      | (injection h with h2
         obtain ⟨rfl, rfl⟩ := Prod.mk.injEq .. |>.mp h2
         rfl)

/-- register_arbitrator extends the registry with the fixed initial record: 5 percent fee, reputation 80, zero cases handled. -/
theorem register_arbitrator_shape (s : Storage) (a sp : Nat)
    (s' : Storage) (ts : List Transfer)
    (h : register_arbitrator s a sp = .ok (s', ts)) :
    s'.arbitrators = setA s.arbitrators a
      { address := a, fee_percentage := ARB_FEE, reputation := 80,
        cases_handled := 0, specialization := sp } := by
  unfold register_arbitrator at h
  split at h
  · exact Except.noConfusion h
  · injection h with h2
    obtain ⟨rfl, rfl⟩ := Prod.mk.injEq .. |>.mp h2
    rfl

/-- Every successful public call preserves goodRegistry: only register_arbitrator writes the registry, and it writes the initial counters. -/
theorem applyOp_good (s : Storage) (op : Op) (s' : Storage)
    (ts : List Transfer) (h : applyOp s op = .ok (s', ts))
    (hg : goodRegistry s.arbitrators) : goodRegistry s'.arbitrators := by
  cases op with
  | opInit tk =>
      unfold applyOp at h
      simp only [] at h
      split at h
      · exact Except.noConfusion h
      · injection h with h2
        obtain ⟨rfl, rfl⟩ := Prod.mk.injEq .. |>.mp h2
        rename_i s1 heq
        rw [init_contract_registry s tk s1 heq]
        exact hg
  | opCreate now c t ds amts dls =>
      unfold applyOp at h
      simp only [] at h
      split at h
      · exact Except.noConfusion h
      · rename_i s1 heq
        split at h
        · exact Except.noConfusion h
        · injection h with h2
          obtain ⟨rfl, rfl⟩ := Prod.mk.injEq .. |>.mp h2
          rename_i r s2 jid heq2
          rw [create_job_registry s1 now c t ds amts dls s2 jid heq2,
            check_reentrancy_arb s s1 heq]
          exact hg
  | opFund c j =>
      unfold applyOp at h
      simp only [] at h
      split at h
      · exact Except.noConfusion h
      · rename_i s1 heq
        rw [fund_job_registry s1 c j s' ts h,
          check_reentrancy_arb s s1 heq]
        exact hg
  | opSelect c j t =>
      unfold applyOp at h
      simp only [] at h
      split at h
      · exact Except.noConfusion h
      · rename_i s1 heq
        rw [select_talent_registry s1 c j t s' ts h,
          check_reentrancy_arb s s1 heq]
        exact hg
  | opSubmit now t j i d =>
      unfold applyOp at h
      simp only [] at h
      split at h
      · exact Except.noConfusion h
      · rename_i s1 heq
        rw [submit_milestone_registry s1 now t j i d s' ts h,
          check_reentrancy_arb s s1 heq]
        exact hg
  | opApprove c j i =>
      unfold applyOp at h
      simp only [] at h
      split at h
      · exact Except.noConfusion h
      · rename_i s1 heq
        rw [approve_milestone_registry s1 c j i s' ts h,
          check_reentrancy_arb s s1 heq]
        exact hg
  | opRaise c j i a =>
      unfold applyOp at h
      simp only [] at h
      split at h
      · exact Except.noConfusion h
      · rename_i s1 heq
        rw [raise_dispute_registry s1 c j i a s' ts h,
          check_reentrancy_arb s s1 heq]
        exact hg
  | opResolve a j i d =>
      unfold applyOp at h
      simp only [] at h
      split at h
      · exact Except.noConfusion h
      · rename_i s1 heq
        rw [resolve_dispute_registry s1 a j i d s' ts h,
          check_reentrancy_arb s s1 heq]
        exact hg
  | opCancel c j =>
      unfold applyOp at h
      simp only [] at h
      split at h
      · exact Except.noConfusion h
      · rename_i s1 heq
        rw [cancel_job_registry s1 c j s' ts h,
          check_reentrancy_arb s s1 heq]
        exact hg
  | opRegister a sp =>
      unfold applyOp at h
      simp only [] at h
      split at h
      · exact Except.noConfusion h
      · rename_i s1 heq
        rw [register_arbitrator_shape s1 a sp s' ts h]
        intro x e hl
        rw [lookupA_setA] at hl
        rw [check_reentrancy_arb s s1 heq] at hl
        split at hl
        · injection hl with h3
          subst h3
          exact ⟨rfl, rfl⟩
        · exact hg x e hl

/-- goodRegistry is invariant under any sequence of public calls. -/
theorem runSeq_good (ops : List Op) :
    ∀ s : Storage, goodRegistry s.arbitrators →
      goodRegistry (runSeq s ops).arbitrators := by
  induction ops with
  | nil => intro s hg; exact hg
  | cons op rest ih =>
      intro s hg
      show goodRegistry (runSeq (runOp s op) rest).arbitrators
      apply ih
      unfold runOp
      cases hop : applyOp s op with
      | error e => exact hg
      | ok pr =>
          obtain ⟨s2, ts⟩ := pr
          exact applyOp_good s op s2 ts hop hg

/-- Claim C3 (amended): resolving a dispute with decision false and no
milestone index sets every currently Submitted milestone to Rejected
(not Pending) with its submission data cleared, leaves every other
milestone unchanged, deducts the 5 percent arbitrator fee of
total_value from escrow_balance, and leaves the job Active (given some
milestone is not Paid). -/
theorem c3_reject_all_amended (s : Storage) (arb job_id : Nat)
    (job : Job) (tok : Nat)
    (hj : lookupA s.jobs job_id = some job)
    (hs : job.state = .Disputed)
    (ha : job.selected_arbitrator = some arb)
    (htok : s.token = some tok)
    (hnp : ∃ m ∈ job.milestones, m.state ≠ .Paid) :
    ∃ s', resolve_dispute s arb job_id none false =
        .ok (s', [.pay arb (job.total_value * ARB_FEE / 100)]) ∧
      ∃ j', lookupA s'.jobs job_id = some j' ∧
        j'.milestones = job.milestones.map rejSub ∧
        j'.escrow_balance =
          job.escrow_balance - job.total_value * ARB_FEE / 100 ∧
        j'.state = .Active := by
  have hall : ¬ (allPaid { job with
      milestones := job.milestones.map rejSub } = true) := by
    rw [allPaid_iff]
    intro hallp
    obtain ⟨m, hmem, hm⟩ := hnp
    have hx := hallp (rejSub m) (List.mem_map_of_mem _ hmem)
    unfold rejSub at hx
    by_cases hsub : m.state = MilestoneState.Submitted
    · rw [if_pos hsub] at hx
      simp at hx
    · rw [if_neg hsub] at hx
      exact hm hx
  unfold resolve_dispute
  rw [hj]
  simp only [hs, ha, htok]
  simp only [ne_eq, not_true_eq_false, if_false, Bool.false_eq_true]
  rw [apply_decision_reject_none tok job]
  simp only []
  rw [if_neg hall]
  exact ⟨_, rfl, _, lookupA_setA_self _ _ _, rfl, rfl, rfl⟩

/-- Claim C4: resolve_dispute on a job that is not Disputed fails with
InvalidState; on a Disputed job with a caller different from
selected_arbitrator it fails with NotArbitrator; and every successful
call transfers exactly one arbitrator fee of total_value * 5 / 100 as
its first transfer, all remaining transfers being milestone payouts to
the talent, with escrow_balance decreased by the fee exactly once plus
the payout sum, whatever the decision and however many milestones are
touched. -/
theorem c4_resolve_dispute (s : Storage) (arb job_id : Nat)
    (idx : Option Nat) (decision : Bool) (job : Job)
    (hj : lookupA s.jobs job_id = some job) :
    (job.state ≠ .Disputed →
      resolve_dispute s arb job_id idx decision =
        .error (.err .InvalidState)) ∧
    (job.state = .Disputed → job.selected_arbitrator ≠ some arb →
      resolve_dispute s arb job_id idx decision =
        .error (.err .NotArbitrator)) ∧
    (∀ s' ts, resolve_dispute s arb job_id idx decision = .ok (s', ts) →
      ∃ pays, ts = .pay arb (job.total_value * ARB_FEE / 100) :: pays ∧
        (∀ p ∈ pays, ∃ a v, p = .pay a v ∧ job.talent = some a) ∧
        ∃ j', lookupA s'.jobs job_id = some j' ∧
          j'.amount_paid = job.amount_paid + paySum pays ∧
          j'.escrow_balance = job.escrow_balance - paySum pays -
            job.total_value * ARB_FEE / 100) := by
  refine ⟨?_, ?_, ?_⟩
  · intro hs
    simp [resolve_dispute, hj, hs]
  · intro hs ha
    simp [resolve_dispute, hj, hs, ha]
  · intro s' ts h
    unfold resolve_dispute at h
    rw [hj] at h
    simp only [] at h
    split at h
    · exact Except.noConfusion h
    · split at h
      · exact Except.noConfusion h
      · split at h
        · exact Except.noConfusion h
        · split at h
          · exact Except.noConfusion h
          · rename_i x1 tok htok x0 j1 pays1 heq
            injection h with h2
            obtain ⟨rfl, rfl⟩ := Prod.mk.injEq .. |>.mp h2
            obtain ⟨ht1, htv1, hap1, hesc1, hmem1⟩ :=
              apply_decision_spec tok job idx decision j1 pays1 heq
            refine ⟨pays1, rfl, hmem1, _, lookupA_setA_self _ _ _,
              hap1, ?_⟩
            show j1.escrow_balance - job.total_value * ARB_FEE / 100 = _
            rw [hesc1]

/-- Claim C10: resolve_dispute leaves the arbitrator registry
unchanged, and over every sequence of public calls from a fresh
deployment every registered arbitrator keeps cases_handled = 0 and
reputation = 80 forever. -/
theorem c10_registry_frame :
    (∀ s arb job_id idx d s' ts,
      resolve_dispute s arb job_id idx d = .ok (s', ts) →
      s'.arbitrators = s.arbitrators) ∧
    (∀ ops a e,
      lookupA (runSeq initStorage ops).arbitrators a = some e →
      e.cases_handled = 0 ∧ e.reputation = 80) := by
  constructor
  · intro s arb job_id idx d s' ts h
    exact resolve_dispute_registry s arb job_id idx d s' ts h
  · intro ops a e hl
    refine runSeq_good ops initStorage ?_ a e hl
    intro x e2 hx
    simp [initStorage, lookupA] at hx

/-- Witness for C3: the amended theorem applied to the concrete
disputed fixture sD. -/
theorem c3_reject_all_amended_witness :
    ∃ s', resolve_dispute sD 3 1 none false =
        .ok (s', [.pay 3 (jobD.total_value * ARB_FEE / 100)]) ∧
      ∃ j', lookupA s'.jobs 1 = some j' ∧
        j'.milestones = jobD.milestones.map rejSub ∧
        j'.escrow_balance =
          jobD.escrow_balance - jobD.total_value * ARB_FEE / 100 ∧
        j'.state = .Active :=
  c3_reject_all_amended sD 3 1 jobD 99 rfl rfl rfl rfl (by decide)

/-- Witness for C4: the theorem applied to the concrete disputed
fixture sD. -/
theorem c4_resolve_dispute_witness :
    (jobD.state ≠ .Disputed →
      resolve_dispute sD 3 1 none false = .error (.err .InvalidState)) ∧
    (jobD.state = .Disputed → jobD.selected_arbitrator ≠ some 3 →
      resolve_dispute sD 3 1 none false = .error (.err .NotArbitrator)) ∧
    (∀ s' ts, resolve_dispute sD 3 1 none false = .ok (s', ts) →
      ∃ pays, ts = .pay 3 (jobD.total_value * ARB_FEE / 100) :: pays ∧
        (∀ p ∈ pays, ∃ a v, p = .pay a v ∧ jobD.talent = some a) ∧
        ∃ j', lookupA s'.jobs 1 = some j' ∧
          j'.amount_paid = jobD.amount_paid + paySum pays ∧
          j'.escrow_balance = jobD.escrow_balance - paySum pays -
            jobD.total_value * ARB_FEE / 100) :=
  c4_resolve_dispute sD 3 1 none false jobD rfl

/-- Witness for C5: the theorem applied to the Active fixture sA, plus
the two-milestone example of the claim evaluated concretely: approving
milestone 0 leaves the job Active with amount_paid 100, then approving
milestone 1 leaves it Completed with amount_paid 300. -/
theorem c5_approve_milestone_witness :
    (∃ s', approve_milestone sA 1 1 0 = .ok (s', [.pay 2 mSub100.amount]) ∧
      ∃ j', lookupA s'.jobs 1 = some j' ∧
        j'.milestones = (jobA.milestones.set 0 { mSub100 with state := .Paid }) ∧
        j'.amount_paid = jobA.amount_paid + mSub100.amount ∧
        j'.escrow_balance = jobA.escrow_balance - mSub100.amount ∧
        (j'.state = .Completed ↔
          (∀ mm ∈ jobA.milestones.set 0 { mSub100 with state := .Paid },
            mm.state = .Paid)) ∧
        ((¬ ∀ mm ∈ jobA.milestones.set 0 { mSub100 with state := .Paid },
            mm.state = .Paid) → j'.state = .Active)) ∧
    c5once = .ok (.Active, 100) ∧ c5chain = .ok (.Completed, 300) :=
  ⟨c5_approve_milestone sA 1 1 0 jobA mSub100 2 99 rfl rfl rfl rfl rfl
     rfl rfl, rfl, rfl⟩

/-- Witness for C6: the theorem applied to the talent-hired fixture sT
(escrow 1000, fee 100: pays 100 to the talent and 900 to the client)
and to the no-talent fixture sN (refunds the full 1000 to the
client). -/
theorem c6_cancel_job_witness :
    (∃ s', cancel_job sT 1 1 =
        .ok (s',
          (match jobT.talent with
           | some t => .pay t jobT.cancellation_fee ::
               (if jobT.escrow_balance - jobT.cancellation_fee > 0 then
                  [.pay 1 (jobT.escrow_balance - jobT.cancellation_fee)]
                else [])
           | none =>
               if jobT.escrow_balance > 0 then
                 [.pay 1 jobT.escrow_balance]
               else [])) ∧
      ∃ j', lookupA s'.jobs 1 = some j' ∧
        j'.escrow_balance = 0 ∧ j'.state = .Cancelled ∧
        j'.amount_paid = jobT.amount_paid ∧
        j'.milestones = jobT.milestones) ∧
    (∃ s', cancel_job sN 1 1 =
        .ok (s',
          (match jobN.talent with
           | some t => .pay t jobN.cancellation_fee ::
               (if jobN.escrow_balance - jobN.cancellation_fee > 0 then
                  [.pay 1 (jobN.escrow_balance - jobN.cancellation_fee)]
                else [])
           | none =>
               if jobN.escrow_balance > 0 then
                 [.pay 1 jobN.escrow_balance]
               else [])) ∧
      ∃ j', lookupA s'.jobs 1 = some j' ∧
        j'.escrow_balance = 0 ∧ j'.state = .Cancelled ∧
        j'.amount_paid = jobN.amount_paid ∧
        j'.milestones = jobN.milestones) ∧
    cancel_job sT 1 1 = .ok (sTcanc, [.pay 2 100, .pay 1 900]) ∧
    cancel_job sN 1 1 = .ok (sNcanc, [.pay 1 1000]) :=
  ⟨c6_cancel_job sT 1 1 jobT 99 rfl rfl (by decide) rfl,
   c6_cancel_job sN 1 1 jobN 99 rfl rfl (by decide) rfl,
   rfl, rfl⟩

/-- Witness for C7: the amended theorem applied to the Completed
fixture sComp. -/
theorem c7_terminal_rejects_amended_witness :
    fund_job sComp jobComp.client 1 = .error (.err .InvalidState) ∧
    (∀ t, select_talent sComp jobComp.client 1 t =
      .error (.err .InvalidState)) ∧
    (∀ now t i d, submit_milestone sComp now t 1 i d =
      .error (.err .InvalidState)) ∧
    (∀ i, approve_milestone sComp jobComp.client 1 i =
      .error (.err .InvalidState)) ∧
    (∀ c i a, raise_dispute sComp c 1 i a =
      .error (.err .InvalidState)) ∧
    (∀ a i d, resolve_dispute sComp a 1 i d =
      .error (.err .InvalidState)) ∧
    cancel_job sComp jobComp.client 1 = .error (.err .JobCompleted) :=
  c7_terminal_rejects_amended sComp 1 jobComp rfl (Or.inl rfl)

/-- Witness for C8: the amended theorem applied to concrete fixtures:
raise_dispute on sA sets both dispute fields, resolve_dispute on sD
clears both, cancel_job on sD keeps both of jobD. -/
theorem c8_dispute_fields_amended_witness :
    (raise_dispute sA 1 1 none 3 = .ok (sAdisp, []) ∧
      ∃ j', lookupA sAdisp.jobs 1 = some j' ∧ j'.state = .Disputed ∧
        j'.dispute_raised_by = some 1 ∧
        j'.selected_arbitrator = some 3) ∧
    (resolve_dispute sD 3 1 none false = .ok (sDrej, [.pay 3 5]) ∧
      ∃ j', lookupA sDrej.jobs 1 = some j' ∧
        j'.dispute_raised_by = none ∧ j'.selected_arbitrator = none ∧
        j'.state ≠ .Disputed) ∧
    (cancel_job sD 1 1 = .ok (sDcanc, [.pay 2 10, .pay 1 90]) ∧
      ∃ j', lookupA sDcanc.jobs 1 = some j' ∧ j'.state = .Cancelled ∧
        j'.dispute_raised_by = jobD.dispute_raised_by ∧
        j'.selected_arbitrator = jobD.selected_arbitrator) :=
  ⟨⟨rfl, c8_dispute_fields_amended.1 sA 1 1 none 3 sAdisp [] rfl⟩,
   ⟨rfl, c8_dispute_fields_amended.2.1 sD 3 1 none false sDrej
      [.pay 3 5] rfl⟩,
   ⟨rfl, c8_dispute_fields_amended.2.2 sD 1 1 jobD sDcanc
      [.pay 2 10, .pay 1 90] rfl rfl⟩⟩

/-- Witness for C9: the theorem applied to the Active fixture sP with
its Pending milestone, at ledger time 10. -/
theorem c9_submit_milestone_witness :
    (∀ m, jobP.state = .Active → jobP.talent = some 2 →
      jobP.milestones[0]? = some m → m.state = .Pending →
      10 ≤ m.deadline →
      submit_milestone sP 10 2 1 0 77 =
        .ok (update_job sP 1
          { jobP with milestones := (jobP.milestones.set 0
              { m with state := .Submitted, submission_data := 77,
                       submitted_at := some 10 }) }, [])) ∧
    (∀ m, jobP.state = .Active → jobP.talent = some 2 →
      jobP.milestones[0]? = some m → m.state = .Pending →
      m.deadline < 10 →
      submit_milestone sP 10 2 1 0 77 =
        .error (.err .DeadlinePassed)) ∧
    (∀ m, jobP.state = .Active → jobP.talent = some 2 →
      jobP.milestones[0]? = some m → m.state ≠ .Pending →
      submit_milestone sP 10 2 1 0 77 =
        .error (.err .MilestonePending)) ∧
    (∀ r, submit_milestone sP 10 2 1 0 77 = .ok r →
      jobP.state = .Active ∧ jobP.talent = some 2 ∧
      ∃ m, jobP.milestones[0]? = some m ∧ m.state = .Pending ∧
        10 ≤ m.deadline) :=
  c9_submit_milestone sP 10 2 1 0 77 jobP rfl

/-- Witness for C10: resolve_dispute on sD leaves the registry equal,
and after registering arbitrator 3 its record holds cases_handled 0
and reputation 80. -/
theorem c10_registry_frame_witness :
    (resolve_dispute sD 3 1 none false = .ok (sDrej, [.pay 3 5]) ∧
      sDrej.arbitrators = sD.arbitrators) ∧
    (lookupA (runSeq initStorage [.opRegister 3 8]).arbitrators 3 =
        some { address := 3, fee_percentage := ARB_FEE,
               reputation := 80, cases_handled := 0,
               specialization := 8 } ∧
      (0 = 0 ∧ 80 = 80)) :=
  ⟨⟨rfl, c10_registry_frame.1 sD 3 1 none false sDrej [.pay 3 5] rfl⟩,
   ⟨rfl, c10_registry_frame.2 [.opRegister 3 8] 3
      { address := 3, fee_percentage := ARB_FEE, reputation := 80,
        cases_handled := 0, specialization := 8 } rfl⟩⟩
